import Mathlib

/-!
Shallow embedding of the falcon-server authentication/authorization core:
`src/utils/auth.js`, `src/middleware/auth.js`, `src/utils/errorHandler.js`,
the auth controller (login, verifyEmail) and the course-enrollment handler.
Times are in milliseconds since the epoch unless noted; machine integers in
the source are JS numbers used here only at Nat scale, so Nat suffices.
-/

namespace Falcon

/-- Modelled from the spec: `utils/errors.js` is referenced by the source but
absent from the tree. Spec §7 and the README give each error class a name, an
HTTP status and an operational flag (ValidationError 400, AuthenticationError
401, AuthorizationError 403, NotFoundError 404, ConflictError 409, all
operational). An error value carries those fields. -/
structure AppErr where
  name : String
  statusCode : Nat
  status : String
  message : String
  isOperational : Bool
deriving Repr, DecidableEq

/-- Modelled from the spec: base `AppError(message, statusCode)`; 4xx codes map
to status "fail", others to "error"; app errors are operational. -/
def mkAppError (message : String) (statusCode : Nat) : AppErr :=
  { name := "AppError", statusCode := statusCode,
    status := if 400 ≤ statusCode ∧ statusCode < 500 then "fail" else "error",
    message := message, isOperational := true }

/-- Modelled from the spec: `AuthenticationError` (401). -/
def mkAuthenticationError (message : String) : AppErr :=
  { mkAppError message 401 with name := "AuthenticationError" }

/-- Modelled from the spec: `AuthorizationError` (403). -/
def mkAuthorizationError (message : String) : AppErr :=
  { mkAppError message 403 with name := "AuthorizationError" }

/-- Modelled from the spec: `ValidationError` (400) with per-field reasons
(the field list is irrelevant to the claims and is dropped). -/
def mkValidationError (message : String) : AppErr :=
  { mkAppError message 400 with name := "ValidationError" }

/-- Modelled from the spec: `NotFoundError` (404), built from the entity name. -/
def mkNotFoundError (what : String) : AppErr :=
  { mkAppError (what ++ " not found") 404 with name := "NotFoundError" }

/-- Modelled from the spec: `ConflictError` (409), duplicate unique key. -/
def mkConflictError (message : String) : AppErr :=
  { mkAppError message 409 with name := "ConflictError" }

/-- A plain `new Error(msg)` (non-operational, no own status code; the global
handler would default it to 500/"error"). -/
def mkPlainError (message : String) : AppErr :=
  { name := "Error", statusCode := 500, status := "error",
    message := message, isOperational := false }

/-! ## JWT model (jsonwebtoken semantics)

`jwt.sign(payload, secret, { expiresIn })` with a payload that already carries
`iat` uses that `iat` verbatim as the base timestamp: `exp = payload.iat +
expiresIn-in-seconds`. `jwt.verify` recomputes the signature and reports
`TokenExpiredError` when `floor(Date.now()/1000) >= exp`. The signature is
modelled by recording the signing secret in the token. -/

structure JwtPayload where
  id : Nat
  role : String
  iat : Nat
  exp : Nat
deriving Repr, DecidableEq

structure SignedJwt where
  payload : JwtPayload
  signedWith : String
deriving Repr, DecidableEq

/-- A presented token string: either decodes to a structurally valid signed
token or is garbage (malformed). -/
def Tok : Type := Sum String SignedJwt

instance : DecidableEq Tok := by unfold Tok; infer_instance

def jwtSign (id : Nat) (role : String) (iatClaim : Nat) (secret : String)
    (expiresInSec : Nat) : SignedJwt :=
  { payload := { id := id, role := role, iat := iatClaim, exp := iatClaim + expiresInSec },
    signedWith := secret }

inductive JwtError
  | TokenExpiredError
  | JsonWebTokenError
deriving Repr, DecidableEq

def jwtVerify (t : SignedJwt) (secret : String) (nowMs : Nat) :
    Except JwtError JwtPayload :=
  if t.signedWith ≠ secret then .error .JsonWebTokenError
  else if t.payload.exp ≤ nowMs / 1000 then .error .TokenExpiredError
  else .ok t.payload

def jwtVerifyTok (tok : Tok) (secret : String) (nowMs : Nat) :
    Except JwtError JwtPayload :=
  match tok with
  | .inl _ => .error .JsonWebTokenError
  | .inr t => jwtVerify t secret nowMs

/-! ## src/utils/auth.js -/

/-- `generateToken(userId, role)`: signs `{ id, role, iat: Date.now() }` with
the configured secret and `expiresIn`. Note the source puts the *millisecond*
clock into `iat`. The secret and the configured lifetime (in seconds, as
jsonwebtoken parses `config.jwt.expiresIn`) are passed explicitly since
`config/server.js` only fixes them per deployment. -/
def generateToken (userId : Nat) (role : String) (nowMs : Nat) (secret : String)
    (expiresInSec : Nat) : SignedJwt :=
  jwtSign userId role nowMs secret expiresInSec

/-- `verifyToken(token)`: wraps `jwt.verify`, mapping `TokenExpiredError` and
`JsonWebTokenError` to distinct `AuthenticationError`s. -/
def verifyToken (tok : Tok) (secret : String) (nowMs : Nat) :
    Except AppErr JwtPayload :=
  match jwtVerifyTok tok secret nowMs with
  | .ok decoded => .ok decoded
  | .error .TokenExpiredError => .error (mkAuthenticationError "Token has expired")
  | .error .JsonWebTokenError => .error (mkAuthenticationError "Invalid token")

section Hashing

/-- `hashToken(token)`: SHA-256 hex digest. The digest function itself is kept
abstract (a parameter `sha256`); collision resistance enters theorems as an
injectivity hypothesis. -/
def hashToken (sha256 : String → String) (token : String) : String :=
  sha256 token

/-- `verifyEmailToken(token, hashedToken)`: hash of the presented secret must
equal the stored hash. -/
def verifyEmailToken (sha256 : String → String) (token hashedToken : String) : Bool :=
  hashToken sha256 token == hashedToken

structure ResetCheck where
  isValid : Bool
  isExpired : Bool
deriving Repr, DecidableEq

/-- `verifyPasswordResetToken(token, hashedToken, expires)`: returns the hash
check and the expiry check (`Date.now() > expires`) as independent fields. -/
def verifyPasswordResetToken (sha256 : String → String) (token hashedToken : String)
    (expires nowMs : Nat) : ResetCheck :=
  { isValid := hashToken sha256 token == hashedToken,
    isExpired := expires < nowMs }

end Hashing

/-- An `Authorization` header: the `Bearer ` scheme flag and the remainder.
`extractTokenFromHeader` throws unless the header starts with `Bearer `. -/
structure AuthHeader where
  hasBearerScheme : Bool
  tok : Tok
deriving DecidableEq

def extractTokenFromHeader (h : AuthHeader) : Except AppErr Tok :=
  if h.hasBearerScheme then .ok h.tok
  else .error (mkAuthenticationError "No token provided")

/-- `hasRole(userRole, requiredRoles)` for the array case. -/
def hasRole (userRole : String) (requiredRoles : List String) : Bool :=
  requiredRoles.contains userRole

/-! ## Account / request model

Modelled from the spec where `models/User.js` is absent from the tree: the
account record carries identity, credential hash, role, activity flag, the
credential-change timestamp and the single-use verification token fields
(spec §3). `passwordChangedAt` is a `Date`; its `getTime()` is milliseconds. -/

structure User where
  _id : Nat
  email : String
  password : String
  role : String
  isActive : Bool
  passwordChangedAtMs : Option Nat
  emailVerificationToken : Option String
  emailVerificationExpires : Option Nat
  isEmailVerified : Bool
  lastLoginMs : Option Nat
deriving Repr, DecidableEq

/-- The request fields the auth middleware reads: the `token` cookie and the
`Authorization` header. -/
structure Request where
  cookieToken : Option Tok
  authorization : Option AuthHeader
deriving DecidableEq

/-! ## src/middleware/auth.js -/

/-- `protect`: cookie-or-header token extraction, token verification, account
lookup, active check, and the credential-change check
(`decoded.iat < parseInt(passwordChangedAt.getTime() / 1000)`). -/
def protect (req : Request) (findById : Nat → Option User) (secret : String)
    (nowMs : Nat) : Except AppErr User := do
  let token? ← (match req.cookieToken with
    | some t => Except.ok (some t)
    | none =>
      match req.authorization with
      | some h => (extractTokenFromHeader h).map some
      | none => Except.ok none)
  match token? with
  | none => Except.error (mkAuthenticationError "No token provided")
  | some tok =>
    let decoded ← verifyToken tok secret nowMs
    match findById decoded.id with
    | none => Except.error (mkAuthenticationError "User no longer exists")
    | some currentUser =>
      if ¬ currentUser.isActive then
        Except.error (mkAuthenticationError "User account is deactivated")
      else
        match currentUser.passwordChangedAtMs with
        | some changedMs =>
          if decoded.iat < changedMs / 1000 then
            Except.error
              (mkAuthenticationError "User recently changed password! Please log in again")
          else Except.ok currentUser
        | none => Except.ok currentUser

/-- The body of `optionalAuth` before its catch-all: header-only token
extraction, verification and lookup; a found, active account is bound,
anything else falls through anonymously or throws. -/
def optionalAuthTry (req : Request) (findById : Nat → Option User) (secret : String)
    (nowMs : Nat) : Except AppErr (Option User) := do
  match req.authorization with
  | none => Except.ok none
  | some h =>
    let tok ← extractTokenFromHeader h
    let decoded ← verifyToken tok secret nowMs
    match findById decoded.id with
    | some currentUser =>
      if currentUser.isActive then Except.ok (some currentUser) else Except.ok none
    | none => Except.ok none

/-- `optionalAuth`: the whole body is wrapped in `try continue catch ignore` and
always ends in `next()`; a caught error leaves the request anonymous. -/
def optionalAuth (req : Request) (findById : Nat → Option User) (secret : String)
    (nowMs : Nat) : Except AppErr (Option User) :=
  match optionalAuthTry req findById secret nowMs with
  | .ok user? => .ok user?
  | .error _ => .ok none

/-- The owner-like references a resource document may carry. -/
structure Resource where
  owner : Option Nat
  user : Option Nat
  instructor : Option Nat
deriving Repr, DecidableEq

/-- `isOwner(model)`: requires a logged-in user and an existing resource;
admin/manager bypass; otherwise `resource.owner || resource.user ||
resource.instructor`, when present, must equal the caller's id. -/
def isOwner (reqUser : Option User) (resource? : Option Resource) :
    Except AppErr Unit :=
  match reqUser with
  | none => .error (mkAuthenticationError "You must be logged in to access this resource")
  | some u =>
    match resource? with
    | none => .error (mkPlainError "Resource not found")
    | some resource =>
      if ["admin", "manager"].contains u.role then .ok ()
      else
        match resource.owner <|> resource.user <|> resource.instructor with
        | some ownerField =>
          if ownerField ≠ u._id then
            .error (mkAuthorizationError "You can only access your own resources")
          else .ok ()
        | none => .ok ()

/-- One call of the closure returned by `authRateLimit(maxAttempts, windowMs)`
for a single key: drop stored attempts not strictly newer than `now - windowMs`
(the JS `windowStart` may be negative, hence the `Int` comparison), reject when
the surviving count reaches `maxAttempts`, otherwise record the attempt.
Returns whether the attempt passed and the key's new stored list. -/
def rateLimitCheck (prev : List Nat) (nowMs windowMs maxAttempts : Nat) :
    Bool × List Nat :=
  let windowStart : Int := (nowMs : Int) - (windowMs : Int)
  let current := prev.filter (fun (t : Nat) => windowStart < (t : Int))
  if maxAttempts ≤ current.length then (false, current)
  else (true, current ++ [nowMs])

/-- Feed a sequence of attempt times for one key through the limiter, starting
from stored list `init`; returns the pass/reject flags and the final list. -/
def runLimiter (maxAttempts windowMs : Nat) (init : List Nat) :
    List Nat → List Bool × List Nat
  | [] => ([], init)
  | t :: ts =>
    let r := rateLimitCheck init t windowMs maxAttempts
    let rest := runLimiter maxAttempts windowMs r.2 ts
    (r.1 :: rest.1, rest.2)

/-! ## Auth controller (login, verifyEmail) -/

/-- JS falsiness of an optional string field (`!email`): absent or empty. -/
def strFalsy : Option String → Bool
  | none => true
  | some s => s.isEmpty

structure LoginOk where
  user : User
  token : SignedJwt
deriving Repr, DecidableEq

/-- `login`: missing-field validation, combined missing-user / wrong-password
rejection with one constant message, deactivated-account rejection, last-login
update and session-token issuance (the refresh token and cookies carry no
information the claims need). `checkPw` stands for `bcrypt.compare` against the
stored hash, kept abstract. -/
def login (findOne : String → Option User) (checkPw : String → String → Bool)
    (email? password? : Option String) (nowMs : Nat) (secret : String)
    (expiresInSec : Nat) : Except AppErr LoginOk :=
  if strFalsy email? || strFalsy password? then
    .error (mkValidationError "Email and password are required")
  else
    let email := email?.getD ""
    let password := password?.getD ""
    match findOne email with
    | none => .error (mkAuthenticationError "Incorrect email or password")
    | some user =>
      if ¬ checkPw password user.password then
        .error (mkAuthenticationError "Incorrect email or password")
      else if ¬ user.isActive then
        .error (mkAuthenticationError "User account is deactivated")
      else
        .ok { user := { user with lastLoginMs := some nowMs },
              token := generateToken user._id user.role nowMs secret expiresInSec }

/-- `verifyEmail`: field validation, account lookup, verification-token
presence, expiry (`emailVerificationExpires < Date.now()`), hash match; on
success sets `isEmailVerified` and clears both token fields. Returns the saved
account. -/
def verifyEmail (sha256 : String → String) (findOne : String → Option User)
    (email? token? : Option String) (nowMs : Nat) : Except AppErr User :=
  if strFalsy email? || strFalsy token? then
    .error (mkValidationError "Email and token are required")
  else
    let email := email?.getD ""
    let token := token?.getD ""
    match findOne email with
    | none => .error (mkAuthenticationError "Invalid email or token")
    | some user =>
      match user.emailVerificationToken, user.emailVerificationExpires with
      | some storedHash, some expires =>
        if expires < nowMs then
          .error (mkAuthenticationError "Verification token has expired")
        else if ¬ verifyEmailToken sha256 token storedHash then
          .error (mkAuthenticationError "Invalid verification token")
        else
          .ok { user with isEmailVerified := true,
                          emailVerificationToken := none,
                          emailVerificationExpires := none }
      | _, _ => .error (mkAuthenticationError "No verification token found")

/-! ## Course enrollment -/

structure Enrollment where
  student : Nat
  progress : Nat
deriving Repr, DecidableEq

structure Course where
  _id : Nat
  enrolledStudents : List Enrollment
  maxStudents : Option Nat
deriving Repr, DecidableEq

/-- The `isEnrollmentFull` schema virtual: falsy `maxStudents` (absent or 0)
means never full, else compare the roster length against the ceiling. -/
def isEnrollmentFull (c : Course) : Bool :=
  match c.maxStudents with
  | none => false
  | some m => if m = 0 then false else m ≤ c.enrolledStudents.length

/-- `enrollInCourse`: missing course, role gate, duplicate-enrollment check,
capacity check, then push `{ student }` onto the roster and save. -/
def enrollInCourse (course? : Option Course) (userId : Nat) (userRole : String) :
    Except AppErr Course :=
  match course? with
  | none => .error (mkNotFoundError "Course")
  | some course =>
    if ¬ (["student", "jobseeker"].contains userRole) then
      .error (mkAuthorizationError "Only students or jobseekers can enroll")
    else if course.enrolledStudents.any (fun e => e.student == userId) then
      .error (mkAppError "You are already enrolled in this course" 400)
    else if isEnrollmentFull course then
      .error (mkAppError "Course enrollment is full" 400)
    else
      .ok { course with
            enrolledStudents := course.enrolledStudents ++ [{ student := userId, progress := 0 }] }

/-! ## src/utils/errorHandler.js

An error object as the global handler sees it: the taxonomy fields plus the
driver-specific fields the conversion branches read (`code` is a Mongo number
or a Multer string; `path`/`value` feed `handleCastErrorDB`; `errmsg` feeds the
duplicate-key branch; `errors` messages feed the validation branch).

The production path starts with the JS object spread `{ ...err }`, which
copies only *own enumerable* properties. For the fields here that matters for
`name`: Mongoose and driver errors may carry `name` on the prototype (lost by
the spread) or assign it in the constructor (kept), so the record carries a
flag `nameOwnEnumerable` saying which, and `spreadCopy` below drops `name`
when the flag is false. `message` and `stack` are own but non-enumerable on
any `Error`, so the spread loses both; the handler's next line restores
`message` explicitly and the production sender never reads `stack`. The
remaining branch inputs (`code`, `errmsg`, `path`, `value`, the validation
messages, `statusCode`, `status`, `isOperational`) are constructor-assigned
own enumerable properties on the errors that carry them and survive the
spread. -/

inductive ErrCode
  | num (n : Nat)
  | str (s : String)
deriving Repr, DecidableEq

structure JsError where
  name : String
  nameOwnEnumerable : Bool
  message : String
  stack : String
  statusCode : Option Nat
  status : Option String
  isOperational : Bool
  code : Option ErrCode
  path : String
  value : String
  errmsg : String
  validationMessages : List String
deriving Repr, DecidableEq

/-- `let error = { ...err }; error.message = err.message;` — the spread keeps
own enumerable properties only: `name` survives exactly when the source error
assigned it on the instance, `stack` is lost, and `message` is lost but
restored by the explicit assignment on the next source line. -/
def spreadCopy (err : JsError) : JsError :=
  { err with name := if err.nameOwnEnumerable then err.name else "",
             stack := "" }

/-- Embed an `AppError` produced by a conversion handler back into the handler's
error type (a fresh error: no driver fields, empty stack). -/
def toJsError (e : AppErr) : JsError :=
  { name := e.name, nameOwnEnumerable := true, message := e.message, stack := "",
    statusCode := some e.statusCode, status := some e.status,
    isOperational := e.isOperational, code := none,
    path := "", value := "", errmsg := "", validationMessages := [] }

/-- Characters of the first quoted run of `errmsg`, as matched by the
duplicate-key regex: everything from the first quote through the repeat of that
same quote character. -/
def takeThroughQuote (q : Char) : List Char → List Char
  | [] => []
  | c :: cs => if c = q then [c] else c :: takeThroughQuote q cs

def firstQuotedChars : List Char → List Char
  | [] => []
  | c :: cs =>
    if c = '"' ∨ c = Char.ofNat 39 then c :: takeThroughQuote c cs
    else firstQuotedChars cs

def firstQuoted (s : String) : String :=
  String.mk (firstQuotedChars s.data)

def handleCastErrorDB (err : JsError) : AppErr :=
  mkAppError ("Invalid " ++ err.path ++ ": " ++ err.value) 400

def handleDuplicateFieldsDB (err : JsError) : AppErr :=
  mkAppError ("Duplicate field value: " ++ firstQuoted err.errmsg ++
    ". Please use another value!") 400

def handleValidationErrorDB (err : JsError) : AppErr :=
  mkAppError ("Invalid input data. " ++ String.intercalate ". " err.validationMessages) 400

def handleJWTError : AppErr :=
  mkAppError "Invalid token. Please log in again!" 401

def handleJWTExpiredError : AppErr :=
  mkAppError "Your token has expired! Please log in again." 401

def handleMulterError (err : JsError) : AppErr :=
  if err.code = some (.str "LIMIT_FILE_SIZE") then
    mkAppError "File too large. Please upload a smaller file." 400
  else if err.code = some (.str "LIMIT_UNEXPECTED_FILE") then
    mkAppError "Unexpected file field." 400
  else
    mkAppError "File upload error." 400

/-- The HTTP response shaped by the handler: status line plus the JSON body
fields actually emitted (`errorDetail`/`stack` appear only in development). -/
structure ErrResponse where
  httpStatus : Nat
  status : String
  errorDetail : Option JsError
  message : String
  stack : Option String
deriving Repr, DecidableEq

def sendErrorDev (err : JsError) : ErrResponse :=
  { httpStatus := err.statusCode.getD 500, status := err.status.getD "error",
    errorDetail := some err, message := err.message, stack := some err.stack }

def sendErrorProd (err : JsError) : ErrResponse :=
  if err.isOperational then
    { httpStatus := err.statusCode.getD 500, status := err.status.getD "error",
      errorDetail := none, message := err.message, stack := none }
  else
    { httpStatus := 500, status := "error", errorDetail := none,
      message := "Something went wrong!", stack := none }

/-- `globalErrorHandler`: default the status fields, then branch on
`NODE_ENV`. In production the spread copy is taken first, then the
Mongo/JWT/Multer conversions run in sequence before `sendErrorProd`. Any
other environment falls off the end of the JS function (no response), hence
the `Option`. -/
def globalErrorHandler (err : JsError) (env : String) : Option ErrResponse :=
  let err := { err with statusCode := some (err.statusCode.getD 500),
                        status := some (err.status.getD "error") }
  if env = "development" then
    some (sendErrorDev err)
  else if env = "production" then
    let e := spreadCopy err
    let e := if e.name = "CastError" then toJsError (handleCastErrorDB e) else e
    let e := if e.code = some (.num 11000) then toJsError (handleDuplicateFieldsDB e) else e
    let e := if e.name = "ValidationError" then toJsError (handleValidationErrorDB e) else e
    let e := if e.name = "JsonWebTokenError" then toJsError handleJWTError else e
    let e := if e.name = "TokenExpiredError" then toJsError handleJWTExpiredError else e
    let e := if e.name = "MulterError" then toJsError (handleMulterError e) else e
    some (sendErrorProd e)
  else none

/-! ## Claims -/

/-- Claim C1, code-bug evidence. `generateToken` writes the *millisecond*
clock into the `iat` claim, and jsonwebtoken then computes
`exp = iat + expiresIn-seconds`, while `verify` compares `exp` against
`floor(now/1000)`. Consequence, shown at a concrete input: a token issued at
epoch-ms 1700000000000 with a 90-day (7776000 s) configured lifetime is still
accepted — with the original id and role — 90 days *and one second* after
issuance, where the claim requires the expired-token failure. (The roundtrip
part of the claim does hold: id and role come back unchanged.) -/
theorem c1_token_outlives_configured_lifetime :
    1700000000000 + 7776000 * 1000 < 1707776001000 ∧
    verifyToken (Sum.inr (generateToken 7 "student" 1700000000000 "jwt-secret" 7776000))
        "jwt-secret" 1707776001000
      = Except.ok { id := 7, role := "student", iat := 1700000000000, exp := 1700007776000 } := by
  exact ⟨by norm_num, rfl⟩

/-- The account presented in the claim-C2 scenario: credential changed at
epoch-ms 1700000060000, sixty seconds after the token below was issued. -/
def c2User : User :=
  { _id := 7, email := "a@b.com", password := "hash", role := "student",
    isActive := true, passwordChangedAtMs := some 1700000060000,
    emailVerificationToken := none, emailVerificationExpires := none,
    isEmailVerified := false, lastLoginMs := none }

/-- Claim C2, code-bug evidence. `protect` compares `decoded.iat` (which
`generateToken` recorded in milliseconds) against
`parseInt(passwordChangedAt.getTime() / 1000)` (seconds), so the stale-token
check `iat < changedTimestamp` is false for any realistic clock. Concretely: a
token issued at epoch-ms 1700000000000 for an account whose credential changed
sixty seconds later is still accepted two minutes after issuance, where the
claim requires an `AuthenticationError`. -/
theorem c2_protect_accepts_token_issued_before_password_change :
    1700000000000 < 1700000060000 ∧
    protect
        { cookieToken := some (Sum.inr (generateToken 7 "student" 1700000000000 "jwt-secret" 7776000)),
          authorization := none }
        (fun i => if i = 7 then some c2User else none) "jwt-secret" 1700000120000
      = Except.ok c2User := by
  exact ⟨by norm_num, rfl⟩

/-- Claim C3: hash verification of a single-use token succeeds exactly on the
secret whose digest equals the stored hash (given a collision-free digest), and
`verifyPasswordResetToken` computes the expiry flag independently of the hash
flag: a correct-but-expired secret yields `isValid = true` and
`isExpired = true`. -/
theorem c3_single_use_token_checks (sha256 : String → String)
    (hinj : Function.Injective sha256) (s t : String) (expires nowMs : Nat)
    (hexp : expires < nowMs) :
    (verifyEmailToken sha256 t (sha256 s) = true ↔ t = s) ∧
    (verifyPasswordResetToken sha256 s (sha256 s) expires nowMs).isValid = true ∧
    (verifyPasswordResetToken sha256 s (sha256 s) expires nowMs).isExpired = true := by
  refine ⟨?_, ?_, ?_⟩
  · constructor
    · intro h
      exact hinj (by simpa [verifyEmailToken, hashToken] using h)
    · intro h
      subst h
      simp [verifyEmailToken, hashToken]
  · simp [verifyPasswordResetToken, hashToken]
  · simp [verifyPasswordResetToken, hashToken]
    exact hexp

/-- Witness for C3 at a concrete digest (the identity function, injective) and
concrete secrets and times. -/
theorem c3_single_use_token_checks_witness :
    (verifyEmailToken (fun x => x) "other" ((fun (x : String) => x) "tok") = true
        ↔ "other" = "tok") ∧
    (verifyPasswordResetToken (fun x => x) "tok" ((fun (x : String) => x) "tok") 5 6).isValid
        = true ∧
    (verifyPasswordResetToken (fun x => x) "tok" ((fun (x : String) => x) "tok") 5 6).isExpired
        = true :=
  c3_single_use_token_checks (fun x => x) (fun _ _ h => h) "tok" "other" 5 6 (by norm_num)

/-- Claim C4, counterexample. Enrolling an already-rostered account is rejected
with the generic `AppError` carrying HTTP status 400, not with the error
taxonomy's 409 `ConflictError`: at a concrete course whose roster holds
account 5, the handler's error has `statusCode = 400` and
`name ≠ "ConflictError"`. -/
theorem c4_duplicate_enrollment_is_400_not_conflict :
    enrollInCourse
        (some { _id := 1, enrolledStudents := [{ student := 5, progress := 0 }],
                maxStudents := some 30 }) 5 "student"
      = Except.error (mkAppError "You are already enrolled in this course" 400) ∧
    (mkAppError "You are already enrolled in this course" 400).statusCode = 400 ∧
    (mkAppError "You are already enrolled in this course" 400).statusCode ≠ 409 ∧
    (mkAppError "You are already enrolled in this course" 400).name ≠ "ConflictError" := by
  refine ⟨rfl, rfl, by decide, by decide⟩

/-- Claim C4 as amended: for every enrollment request by a student or jobseeker
(the roles the handler's earlier gate admits) whose account already appears on
the course's roster, `enrollInCourse` rejects with the generic `AppError`
carrying status 400 and message "You are already enrolled in this course", and
the roster is left unchanged (the call returns the error, never a saved
course). -/
theorem c4_amended_duplicate_enrollment_rejected (course : Course) (userId : Nat)
    (userRole : String) (hrole : userRole = "student" ∨ userRole = "jobseeker")
    (henrolled : course.enrolledStudents.any (fun e => e.student == userId) = true) :
    enrollInCourse (some course) userId userRole
      = Except.error (mkAppError "You are already enrolled in this course" 400) := by
  rcases hrole with h | h <;> subst h <;> simp [enrollInCourse, henrolled]

/-- Witness for the amended C4 at a concrete course and caller. -/
theorem c4_amended_duplicate_enrollment_rejected_witness :
    enrollInCourse
        (some { _id := 2, enrolledStudents := [{ student := 9, progress := 40 }],
                maxStudents := none }) 9 "jobseeker"
      = Except.error (mkAppError "You are already enrolled in this course" 400) :=
  c4_amended_duplicate_enrollment_rejected
    { _id := 2, enrolledStudents := [{ student := 9, progress := 40 }], maxStudents := none }
    9 "jobseeker" (Or.inr rfl) (by decide)

/-- Claim C5: a login with an existing email but wrong password and a login
with a non-existent email produce the very same error value — same class, same
status code (401), same message ("Incorrect email or password") — for every
account store, password check, and pair of non-empty credentials. -/
theorem c5_login_errors_indistinguishable (findOne : String → Option User)
    (checkPw : String → String → Bool) (e1 e2 pw1 pw2 : String) (u : User)
    (h1 : findOne e1 = some u) (hpw : checkPw pw1 u.password = false)
    (h2 : findOne e2 = none)
    (hne1 : e1 ≠ "") (hnp1 : pw1 ≠ "") (hne2 : e2 ≠ "") (hnp2 : pw2 ≠ "")
    (nowMs : Nat) (secret : String) (expiresInSec : Nat) :
    login findOne checkPw (some e1) (some pw1) nowMs secret expiresInSec
        = Except.error (mkAuthenticationError "Incorrect email or password") ∧
    login findOne checkPw (some e2) (some pw2) nowMs secret expiresInSec
        = Except.error (mkAuthenticationError "Incorrect email or password") := by
  constructor
  · simp [login, strFalsy, String.isEmpty_iff, hne1, hnp1, h1, hpw]
  · simp [login, strFalsy, String.isEmpty_iff, hne2, hnp2, h2]

/-- The single stored account of the claim-C5 witness store. -/
def c5User : User :=
  { _id := 3, email := "a@b.com", password := "hash", role := "student",
    isActive := true, passwordChangedAtMs := none,
    emailVerificationToken := none, emailVerificationExpires := none,
    isEmailVerified := true, lastLoginMs := none }

/-- Witness for C5 at a concrete store holding one account. -/
theorem c5_login_errors_indistinguishable_witness :
    login (fun e => if e = "a@b.com" then some c5User else none) (fun _ _ => false)
        (some "a@b.com") (some "wrong") 0 "jwt-secret" 7776000
        = Except.error (mkAuthenticationError "Incorrect email or password") ∧
    login (fun e => if e = "a@b.com" then some c5User else none) (fun _ _ => false)
        (some "ghost@b.com") (some "pw") 0 "jwt-secret" 7776000
        = Except.error (mkAuthenticationError "Incorrect email or password") :=
  c5_login_errors_indistinguishable
    (fun e => if e = "a@b.com" then some c5User else none) (fun _ _ => false)
    "a@b.com" "ghost@b.com" "wrong" "pw" c5User (by simp) rfl (by simp)
    (by decide) (by decide) (by decide) (by decide) 0 "jwt-secret" 7776000

/-- When every stored attempt is strictly inside the window of the current
call, the limiter's cleanup keeps the whole list, so the call reduces to the
occupancy test. -/
theorem rateLimitCheck_all_kept (l : List Nat) (t W maxA : Nat)
    (h : ∀ x ∈ l, (t : Int) - (W : Int) < (x : Int)) :
    rateLimitCheck l t W maxA
      = if maxA ≤ l.length then (false, l) else (true, l ++ [t]) := by
  have hf : l.filter (fun (x : Nat) => decide ((t : Int) - (W : Int) < (x : Int))) = l :=
    List.filter_eq_self.mpr (fun a ha => by simpa using h a ha)
  simp only [rateLimitCheck, hf]

/-- Attempts that all fall inside one window of width `W` anchored at `t1` are
all admitted while the occupancy stays within `maxA`, and each is recorded. -/
theorem runLimiter_all_within (maxA W t1 : Nat) (ts : List Nat) :
    ∀ (pre : List Nat),
      (∀ x ∈ pre, t1 ≤ x) →
      (∀ t ∈ ts, t1 ≤ t ∧ t < t1 + W) →
      pre.length + ts.length ≤ maxA →
      runLimiter maxA W pre ts = (List.replicate ts.length true, pre ++ ts) := by
  induction ts with
  | nil =>
    intro pre _ _ _
    simp [runLimiter]
  | cons t ts ih =>
    intro pre hpre hts hlen
    have ht := hts t (List.mem_cons_self t ts)
    have hall : ∀ x ∈ pre, (t : Int) - (W : Int) < (x : Int) := by
      intro x hx
      have := hpre x hx
      omega
    have hlt : pre.length < maxA := by
      simp only [List.length_cons] at hlen
      omega
    have hstep : rateLimitCheck pre t W maxA = (true, pre ++ [t]) := by
      rw [rateLimitCheck_all_kept pre t W maxA hall, if_neg (Nat.not_le.mpr hlt)]
    have hrec := ih (pre ++ [t])
      (by
        intro x hx
        rcases List.mem_append.mp hx with h | h
        · exact hpre x h
        · have : x = t := by simpa using h
          omega)
      (fun t' ht' => hts t' (List.mem_cons_of_mem t ht'))
      (by
        simp only [List.length_append, List.length_singleton, List.length_cons,
          List.length_nil] at hlen ⊢
        omega)
    simp [runLimiter, hstep, hrec, List.replicate_succ]

/-- Claim C6: for the limiter configured with `maxA` attempts per window of
`W` ms, a run of `maxA` attempts from one key inside one window is admitted in
full; an additional attempt still inside the window of the earliest one is
rejected (and recorded nowhere); and an attempt made once `W` has elapsed since
the earliest counted attempt passes again. -/
theorem c6_rate_limiter_window (maxA W t1 : Nat) (rest : List Nat) (u v : Nat)
    (hts : ∀ t ∈ t1 :: rest, t1 ≤ t ∧ t < t1 + W)
    (hlen : (t1 :: rest).length = maxA)
    (hu : u < t1 + W) (hv : t1 + W ≤ v) :
    runLimiter maxA W [] (t1 :: rest) = (List.replicate maxA true, t1 :: rest) ∧
    rateLimitCheck (t1 :: rest) u W maxA = (false, t1 :: rest) ∧
    (rateLimitCheck (t1 :: rest) v W maxA).1 = true := by
  refine ⟨?_, ?_, ?_⟩
  · have h := runLimiter_all_within maxA W t1 (t1 :: rest) []
      (by intro x hx; simp at hx) hts (by simp [hlen])
    simpa [hlen] using h
  · have hall : ∀ x ∈ t1 :: rest, (u : Int) - (W : Int) < (x : Int) := by
      intro x hx
      have := (hts x hx).1
      omega
    rw [rateLimitCheck_all_kept _ _ _ _ hall, if_pos (by omega)]
  · have hpt1 : (decide ((v : Int) - (W : Int) < (t1 : Int))) = false := by
      simp only [decide_eq_false_iff_not, not_lt]
      omega
    have hfl : (((t1 :: rest)).filter
        (fun (x : Nat) => decide ((v : Int) - (W : Int) < (x : Int)))).length
          ≤ rest.length := by
      rw [List.filter_cons, hpt1]
      simpa using List.length_filter_le _ rest
    have hcond : ¬ (maxA ≤ (((t1 :: rest)).filter
        (fun (x : Nat) => decide ((v : Int) - (W : Int) < (x : Int)))).length) := by
      simp only [List.length_cons] at hlen
      omega
    simp only [rateLimitCheck, if_neg hcond]

/-- Witness for C6: three attempts at 100, 105, 109 with a window of 10 ms and
a ceiling of 3 all pass; a fourth at 107 is rejected; one at 110 passes. -/
theorem c6_rate_limiter_window_witness :
    runLimiter 3 10 [] [100, 105, 109] = (List.replicate 3 true, [100, 105, 109]) ∧
    rateLimitCheck [100, 105, 109] 107 10 3 = (false, [100, 105, 109]) ∧
    (rateLimitCheck [100, 105, 109] 110 10 3).1 = true :=
  c6_rate_limiter_window 3 10 100 [105, 109] 107 110 (by decide) (by decide)
    (by decide) (by decide)

/-- Claim C7: a successful email verification sets `isEmailVerified` and clears
the stored token hash and expiry, so repeating the request with the same secret
against the saved account fails with the "No verification token found"
authentication error instead of succeeding again. -/
theorem c7_email_verification_consumes_token (sha256 : String → String)
    (findOne : String → Option User) (email secret : String) (u : User)
    (expires nowMs : Nat)
    (hemail : email ≠ "") (hsecret : secret ≠ "")
    (hfind : findOne email = some u)
    (htok : u.emailVerificationToken = some (sha256 secret))
    (hexp : u.emailVerificationExpires = some expires)
    (hfresh : ¬ expires < nowMs) :
    verifyEmail sha256 findOne (some email) (some secret) nowMs
      = Except.ok { u with isEmailVerified := true,
                           emailVerificationToken := none,
                           emailVerificationExpires := none } ∧
    verifyEmail sha256
        (fun e => if e = email
          then some { u with isEmailVerified := true,
                             emailVerificationToken := none,
                             emailVerificationExpires := none }
          else findOne e)
        (some email) (some secret) nowMs
      = Except.error (mkAuthenticationError "No verification token found") := by
  constructor
  · simp [verifyEmail, strFalsy, String.isEmpty_iff, hemail, hsecret, hfind, htok, hexp,
      hfresh, verifyEmailToken, hashToken]
  · simp [verifyEmail, strFalsy, String.isEmpty_iff, hemail, hsecret]

/-- The account of the claim-C7 witness before verification: its stored hash is
the (identity-digest) image of the secret "tok", expiring at 100. -/
def c7User : User :=
  { _id := 4, email := "c@d.com", password := "hash", role := "student",
    isActive := true, passwordChangedAtMs := none,
    emailVerificationToken := some "tok", emailVerificationExpires := some 100,
    isEmailVerified := false, lastLoginMs := none }

/-- Witness for C7 with the identity digest, a one-account store, and a clock
before the stored expiry. -/
theorem c7_email_verification_consumes_token_witness :
    verifyEmail (fun x => x) (fun e => if e = "c@d.com" then some c7User else none)
        (some "c@d.com") (some "tok") 50
      = Except.ok { c7User with isEmailVerified := true,
                                emailVerificationToken := none,
                                emailVerificationExpires := none } ∧
    verifyEmail (fun x => x)
        (fun e => if e = "c@d.com"
          then some { c7User with isEmailVerified := true,
                                  emailVerificationToken := none,
                                  emailVerificationExpires := none }
          else (fun e' => if e' = "c@d.com" then some c7User else none) e)
        (some "c@d.com") (some "tok") 50
      = Except.error (mkAuthenticationError "No verification token found") :=
  c7_email_verification_consumes_token (fun x => x)
    (fun e => if e = "c@d.com" then some c7User else none) "c@d.com" "tok" c7User 100 50
    (by decide) (by decide) (by simp) rfl rfl (by decide)

/-- The non-operational Mongo duplicate-key error of the claim-C8
counterexample: own enumerable `code` 11000 and `errmsg`, `name` on the
prototype (lost by the spread), no own status fields. -/
def c8DupKeyErr : JsError :=
  { name := "MongoServerError", nameOwnEnumerable := false,
    message := "E11000 duplicate key error",
    stack := "at insertOne", statusCode := none, status := none,
    isOperational := false, code := some (.num 11000), path := "", value := "",
    errmsg := "E11000 dup key: \"a@b.com\"", validationMessages := [] }

/-- Claim C8, counterexample. In production a *non-operational* error carrying
the Mongo duplicate-key code 11000 is first converted by the handler's
`handleDuplicateFieldsDB` branch into an operational 400 `AppError`, so the
client receives status 400 with a detailed duplicate-value message — not the
claimed generic 500 "Something went wrong!". -/
theorem c8_nonoperational_dup_key_not_generic_500 :
    c8DupKeyErr.isOperational = false ∧
    globalErrorHandler c8DupKeyErr "production"
      = some { httpStatus := 400, status := "fail", errorDetail := none,
               message := "Duplicate field value: \"a@b.com\". Please use another value!",
               stack := none } := by
  exact ⟨rfl, rfl⟩

/-- Claim C8 as amended: for *every* error reaching the global handler, the
development response carries the full detail — the whole (status-defaulted)
error object, its message and its stack. In production, for every error that
none of the Mongo/JWT/Multer conversion branches matches, an operational error
yields only its own status and message, and a non-operational one yields
status 500 with the generic "Something went wrong!" and no internal detail.
Errors a conversion branch does match are outside the production guarantee:
per the counterexample above, a non-operational duplicate-key error is
reported as an operational 400 with a detailed message. -/
theorem c8_amended_handler_dev_prod_contract (err : JsError) :
    globalErrorHandler err "development"
      = some { httpStatus := err.statusCode.getD 500, status := err.status.getD "error",
               errorDetail := some { err with statusCode := some (err.statusCode.getD 500),
                                              status := some (err.status.getD "error") },
               message := err.message, stack := some err.stack } ∧
    (err.name ∉ ["CastError", "ValidationError", "JsonWebTokenError",
        "TokenExpiredError", "MulterError"] →
      err.code ≠ some (.num 11000) →
      err.isOperational = true →
      globalErrorHandler err "production"
        = some { httpStatus := err.statusCode.getD 500, status := err.status.getD "error",
                 errorDetail := none, message := err.message, stack := none }) ∧
    (err.name ∉ ["CastError", "ValidationError", "JsonWebTokenError",
        "TokenExpiredError", "MulterError"] →
      err.code ≠ some (.num 11000) →
      err.isOperational = false →
      globalErrorHandler err "production"
        = some { httpStatus := 500, status := "error", errorDetail := none,
                 message := "Something went wrong!", stack := none }) := by
  refine ⟨?_, ?_, ?_⟩
  · simp [globalErrorHandler, sendErrorDev]
  · intro hname hcode hop
    simp only [List.mem_cons, List.not_mem_nil, or_false, not_or] at hname
    obtain ⟨hn1, hn2, hn3, hn4, hn5⟩ := hname
    by_cases hown : err.nameOwnEnumerable <;>
      simp [globalErrorHandler, spreadCopy, sendErrorProd, hn1, hn2, hn3, hn4, hn5,
        hcode, hop, hown]
  · intro hname hcode hop
    simp only [List.mem_cons, List.not_mem_nil, or_false, not_or] at hname
    obtain ⟨hn1, hn2, hn3, hn4, hn5⟩ := hname
    by_cases hown : err.nameOwnEnumerable <;>
      simp [globalErrorHandler, spreadCopy, sendErrorProd, hn1, hn2, hn3, hn4, hn5,
        hcode, hop, hown]

/-- The unmatched non-operational error of the claim-C8 witness: a plain
thrown `TypeError` (prototype `name`, no status fields). -/
def c8TypeErr : JsError :=
  { name := "TypeError", nameOwnEnumerable := false, message := "x is not a function",
    stack := "at boom", statusCode := none, status := none, isOperational := false,
    code := none, path := "", value := "", errmsg := "", validationMessages := [] }

/-- The unmatched operational error of the claim-C8 witness: an
`AuthenticationError` with its own 401 status fields. -/
def c8AuthErr : JsError :=
  { name := "AuthenticationError", nameOwnEnumerable := true,
    message := "Incorrect email or password", stack := "at login",
    statusCode := some 401, status := some "fail", isOperational := true,
    code := none, path := "", value := "", errmsg := "", validationMessages := [] }

/-- Witness for the amended C8: full development detail for the plain
`TypeError`; in production the operational 401 error keeps its status and
message while the non-operational `TypeError` collapses to the generic 500. -/
theorem c8_amended_handler_dev_prod_contract_witness :
    globalErrorHandler c8TypeErr "development"
      = some { httpStatus := 500, status := "error",
               errorDetail := some { c8TypeErr with statusCode := some 500,
                                                    status := some "error" },
               message := "x is not a function", stack := some "at boom" } ∧
    globalErrorHandler c8AuthErr "production"
      = some { httpStatus := 401, status := "fail", errorDetail := none,
               message := "Incorrect email or password", stack := none } ∧
    globalErrorHandler c8TypeErr "production"
      = some { httpStatus := 500, status := "error", errorDetail := none,
               message := "Something went wrong!", stack := none } :=
  ⟨(c8_amended_handler_dev_prod_contract c8TypeErr).1,
   (c8_amended_handler_dev_prod_contract c8AuthErr).2.1 (by decide) (by decide) rfl,
   (c8_amended_handler_dev_prod_contract c8TypeErr).2.2 (by decide) (by decide) rfl⟩

/-- Claim C9: `optionalAuth` never rejects — on every input it proceeds
(returns `ok`), and it binds an account exactly when the header is present and
well-formed, the token verifies, the lookup finds the account, and the account
is active; in every other case the request proceeds anonymously. -/
theorem c9_optional_auth_never_rejects (req : Request) (findById : Nat → Option User)
    (secret : String) (nowMs : Nat) :
    (∀ e, optionalAuth req findById secret nowMs ≠ Except.error e) ∧
    (∀ u, optionalAuth req findById secret nowMs = Except.ok (some u) ↔
      ∃ h, req.authorization = some h ∧
        ∃ tok, extractTokenFromHeader h = Except.ok tok ∧
          ∃ d, verifyToken tok secret nowMs = Except.ok d ∧
            findById d.id = some u ∧ u.isActive = true) := by
  constructor
  · intro e
    unfold optionalAuth
    cases optionalAuthTry req findById secret nowMs <;> simp
  · intro u
    unfold optionalAuth optionalAuthTry
    cases hh : req.authorization with
    | none => simp
    | some h =>
      simp only [Option.some.injEq, exists_eq_left', bind, Except.bind]
      cases he : extractTokenFromHeader h with
      | error err => simp
      | ok tok =>
        simp only [Except.ok.injEq, exists_eq_left']
        cases hv : verifyToken tok secret nowMs with
        | error err => simp
        | ok d =>
          simp only [Except.ok.injEq, exists_eq_left']
          cases hf : findById d.id with
          | none => simp
          | some cu =>
            by_cases ha : cu.isActive
            · simp [ha]
              intro hcu
              subst hcu
              exact ha
            · simp [ha]
              intro hcu
              subst hcu
              simp [ha]

/-- Claim C10: for every authenticated caller of any role and every existing
resource document carrying none of the `owner`, `user` or `instructor` fields,
`isOwner` grants access. -/
theorem c10_is_owner_allows_unowned_resources (u : User) (r : Resource)
    (howner : r.owner = none) (huser : r.user = none) (hinstr : r.instructor = none) :
    isOwner (some u) (some r) = Except.ok () := by
  simp only [isOwner, howner, huser, hinstr]
  split <;> rfl

/-- Witness for C10: a student caller and a resource with no owner-like
references. -/
theorem c10_is_owner_allows_unowned_resources_witness :
    isOwner (some c5User) (some { owner := none, user := none, instructor := none })
      = Except.ok () :=
  c10_is_owner_allows_unowned_resources c5User
    { owner := none, user := none, instructor := none } rfl rfl rfl

end Falcon
